import Mathlib

/-!
# Light-horizon S3 index backend and Horizon filter rules

A shallow embedding of

* `exp/lighthorizon/index/s3.go` (`S3Backend.writeBatch`, `S3Backend.Read`,
  `S3Backend.Flush`), and
* `services/horizon/internal/db2/history/filter_rules.go`
  (`Q.UpsertFilterConfig`, `Q.checkForError`, `Q.supportedFilterNames`).

Go's multiple return values `(v, err)` are kept as pairs whose error component
is an `Option` (`none` is Go's `nil`).  Effects on the remote object store, on
the retry queue and on the database are threaded as explicit state.  The AWS
SDK handles held by `S3Backend` and the `Exec` method of `Q` are arbitrary
functions, so every theorem holds for whatever the collaborator does.
-/

namespace index

/-! ## Data model -/

/-- Go `error` values, as far as the index package tells them apart:
the sentinel `os.ErrNotExist`, errors implementing `awserr.Error` (with the
string `Code()` returns and the text `Error()` returns), and every other error
value, known by its `Error()` text (`errors.New`, `fmt.Errorf`, ...). -/
inductive GoError where
  | ErrNotExist : GoError
  | awserr (code : String) (text : String) : GoError
  | errorString (text : String) : GoError
deriving DecidableEq, Repr

/-- The text of the `Error()` method. -/
def GoError.Error : GoError → String
  | .ErrNotExist => "file does not exist"
  | .awserr _ text => text
  | .errorString text => text

/-- The error built by `fmt.Errorf`, given the already formatted text. -/
def Errorf (text : String) : GoError := .errorString text

/-- The constant `s3.ErrCodeNoSuchKey` of the AWS SDK. -/
def ErrCodeNoSuchKey : String := "NoSuchKey"

/-- The package constant `BUCKET`. -/
def BUCKET : String := "horizon-index"

/-- A byte string (each element one byte value). -/
abbrev Bytes := List Nat

/-- Modelled from the spec: the Checkpoint Index, whose declaration is not
part of the sources, is a value the store never inspects; it is kept as its
own byte representation. -/
structure CheckpointIndex where
  data : Bytes
deriving DecidableEq, Repr

/-- The Go type `map[string]*CheckpointIndex`; `none` is the `nil` map. -/
abbrev IndexSet := Option (List (String × CheckpointIndex))

/-- Modelled from the spec: the Batch, a single (account identifier, Account
Index Set) pair; its declaration is not part of the sources, the two fields
are the ones `writeBatch` reads. -/
structure batch where
  account : String
  indexes : IndexSet
deriving DecidableEq, Repr

/-- The callback type `retry`: a procedure taking the batch, acting on the
state `ρ` of whoever owns the queue. -/
abbrev retry (ρ : Type) := batch → ρ → ρ

/-- The fields of `s3manager.UploadInput` that `writeBatch` sets. -/
structure UploadInput where
  Bucket : String
  Key : String
  Body : Bytes
deriving DecidableEq, Repr

/-- The fields of `s3.GetObjectInput` that `Read` sets. -/
structure GetObjectInput where
  Bucket : String
  Key : String
deriving DecidableEq, Repr

/-- The struct `S3Backend` over a remote store with states `σ`.
`downloader` is `s3manager.Downloader.Download`: the contents of the write
buffer afterwards and the error.  `uploader` is `s3manager.Uploader.Upload`:
the error and the store afterwards.  The session handle plays no part in the
three methods and is left out. -/
structure S3Backend (σ : Type) where
  downloader : GetObjectInput → σ → Bytes × Option GoError
  uploader : UploadInput → σ → Option GoError × σ
  parallel : Nat

/-- Modelled from the spec: the Serializer. `writeGzippedTo` and
`readGzippedFrom` are not part of the sources; they are parameters with the
Go result shapes `(bytes written to the buffer, n, err)` and
`(indexes, n, err)`. -/
structure Serializer where
  writeGzippedTo : IndexSet → Bytes × Int × Option GoError
  readGzippedFrom : Bytes → IndexSet × Int × Option GoError

/-! ## `s3.go` -/

/-- The method `S3Backend.writeBatch`: error returned, store afterwards, and
state of the retry callback afterwards. -/
def S3Backend.writeBatch {σ ρ : Type} (s : S3Backend σ) (z : Serializer)
    (b : batch) (r : retry ρ) (w : σ) (q : ρ) : Option GoError × σ × ρ :=
  match z.writeGzippedTo b.indexes with
  | (_, _, some err) =>
    (some (Errorf ("unable to serialize " ++ b.account ++ ": " ++ err.Error)), w, q)
  | (buf, _, none) =>
    match s.uploader { Bucket := BUCKET, Key := b.account, Body := buf } w with
    | (some err, w1) =>
      (some (Errorf ("unable to upload " ++ b.account ++ ", " ++ err.Error)), w1, r b q)
    | (none, w1) => (none, w1, q)

/-- The method `S3Backend.Read` (the debug log line is not modelled). -/
def S3Backend.Read {σ : Type} (s : S3Backend σ) (z : Serializer)
    (account : String) (w : σ) : IndexSet × Option GoError :=
  match s.downloader { Bucket := BUCKET, Key := account } w with
  | (_, some err) =>
    match err with
    | .awserr code _ =>
      if code = ErrCodeNoSuchKey then (none, some .ErrNotExist) else (none, some err)
    | _ => (none, some err)
  | (b, none) =>
    match z.readGzippedFrom b with
    | (indexes, _, err) => (indexes, err)

/-! ## The scheduler behind `Flush` -/

/-- Modelled from the spec: the state of the Batch Scheduler (`parallelFlush`
is not part of the sources).  `queue` is the work queue, each Batch with the
number of times it has been requeued; `requeued` tells whether the write that
just ended pushed its Batch back; `done` and `failed` hold the Batches that
reached a terminal state, `failed` being the aggregated result.  `retryCalls`
and `requeues` only observe the run: every invocation of the retry callback,
and every push back onto the queue. -/
structure Sched where
  queue : List (batch × Nat)
  requeued : Bool
  done : List String
  failed : List (String × GoError)
  retryCalls : List batch
  requeues : List batch
deriving DecidableEq, Repr

/-- Modelled from the spec: the requeue operation handed to the write function
as its retry callback, for a Batch already requeued `used` times.  The Batch is
pushed back onto the queue while the retry budget lasts. -/
def requeue (maxRetries used : Nat) : retry Sched := fun b st =>
  if used < maxRetries then
    { st with
      queue := st.queue ++ [(b, used + 1)]
      requeued := true
      retryCalls := st.retryCalls ++ [b]
      requeues := st.requeues ++ [b] }
  else
    { st with retryCalls := st.retryCalls ++ [b] }

/-- The type of the write function `parallelFlush` is given (`writeOne`). -/
abbrev batchWriter (σ : Type) :=
  batch → retry Sched → σ → Sched → Option GoError × σ × Sched

/-- Modelled from the spec: one write comes to its end.  The workers pull from
the front of the queue, so the writes in flight are those of the first
`parallel` Batches of the queue, never more; `pick` chooses which of them
ends next.  Success is `Done`; a failure that pushed the Batch back is
`Requeued`; any other failure is `Failed`, a terminal state recorded with the
account identifier and the error.  Without a worker (`parallel = 0`) or
without a Batch nothing happens. -/
def workerStep {σ : Type} (maxRetries parallel pick : Nat) (f : batchWriter σ)
    (st : Sched) (w : σ) : Sched × σ :=
  if min parallel st.queue.length = 0 then (st, w)
  else
    match st.queue[pick % min parallel st.queue.length]? with
    | none => (st, w)
    | some (b, used) =>
      match f b (requeue maxRetries used) w
          { st with
            queue := st.queue.eraseIdx (pick % min parallel st.queue.length)
            requeued := false } with
      | (none, w1, st1) => ({ st1 with done := st1.done ++ [b.account] }, w1)
      | (some err, w1, st1) =>
        if st1.requeued then (st1, w1)
        else ({ st1 with failed := st1.failed ++ [(b.account, err)] }, w1)

/-- Modelled from the spec: the run of the workers over `n` ends of a write.
`order` is the order in which the writes in flight end, which the scheduler
does not fix: it gives the choice for each of the steps. -/
def runWorkers {σ : Type} (maxRetries parallel : Nat) (order : Nat → Nat) (f : batchWriter σ) :
    Nat → Sched → σ → Sched × σ
  | 0, st, w => (st, w)
  | n + 1, st, w =>
    match workerStep maxRetries parallel (order n) f st w with
    | (st1, w1) => runWorkers maxRetries parallel order f n st1 w1

/-- Modelled from the spec: the Batch Scheduler `run(parallelism, batches,
writeOne)`, which `s3.go` calls as `parallelFlush`.  The queue starts with one
Batch per account of the flush request; a Batch is written at most
`maxRetries + 1` times, so that many steps per Batch are run.  The call
returns only after the queue is empty: the result is `none` when it is not,
which is the call that never returns. -/
def parallelFlush {σ : Type} (maxRetries parallel : Nat) (order : Nat → Nat)
    (indexes : List (String × IndexSet)) (f : batchWriter σ) (w : σ) : Option (Sched × σ) :=
  match runWorkers maxRetries parallel order f (indexes.length * (maxRetries + 1))
      { queue := indexes.map (fun e => ({ account := e.1, indexes := e.2 }, 0))
        requeued := false, done := [], failed := [], retryCalls := [], requeues := [] } w with
  | (st, w1) => if st.queue = [] then some (st, w1) else none

/-- A retry callback that only records the batches it is invoked with. -/
def record : retry (List batch) := fun b calls => calls ++ [b]

/-- The same backend with every call of the uploader recorded next to the
store. -/
def S3Backend.recording {σ : Type} (s : S3Backend σ) : S3Backend (σ × List UploadInput) where
  downloader := fun g w => s.downloader g w.1
  uploader := fun inp w => ((s.uploader inp w.1).1, ((s.uploader inp w.1).2, w.2 ++ [inp]))
  parallel := s.parallel

/-- The text `sub` occurs in the text `text`. -/
def mentions (text sub : String) : Prop := sub.data <:+: text.data

/-- The serializer round-trips: what `writeGzippedTo` wrote without error,
`readGzippedFrom` decodes without error to the set that was written. -/
def Serializer.RoundTrips (z : Serializer) : Prop :=
  ∀ (m : IndexSet) (buf : Bytes) (n : Int), z.writeGzippedTo m = (buf, n, none) →
    (z.readGzippedFrom buf).1 = m ∧ (z.readGzippedFrom buf).2.2 = none

/-- A failed decode does not populate a result: alongside an error
`readGzippedFrom` returns the `nil` map. -/
def Serializer.DecodeFailsClean (z : Serializer) : Prop :=
  ∀ buf : Bytes, (z.readGzippedFrom buf).2.2 ≠ none → (z.readGzippedFrom buf).1 = none

/-- The errors of `readGzippedFrom` are serialization errors: the decoder
works on bytes in memory and never returns the sentinel `os.ErrNotExist`. -/
def Serializer.DecodeErrorsAreSerialization (z : Serializer) : Prop :=
  ∀ buf : Bytes, (z.readGzippedFrom buf).2.2 ≠ some GoError.ErrNotExist

/-- The object store keeps what was put: after a successful upload the
download of that bucket and key gives the uploaded body, and the download of
every other object is as before. -/
def S3Backend.PutGet {σ : Type} (s : S3Backend σ) : Prop :=
  ∀ (inp : UploadInput) (w w1 : σ), s.uploader inp w = (none, w1) →
    s.downloader { Bucket := inp.Bucket, Key := inp.Key } w1 = (inp.Body, none) ∧
    ∀ g : GetObjectInput, g ≠ { Bucket := inp.Bucket, Key := inp.Key } →
      s.downloader g w1 = s.downloader g w

/-! ## Sample collaborators -/

/-- An object store in memory: the objects by bucket and key, latest first. -/
abbrev MemStore := List (GetObjectInput × Bytes)

/-- The error of a download of a missing key. -/
def noSuchKey : GoError :=
  .awserr ErrCodeNoSuchKey "NoSuchKey: The specified key does not exist."

/-- The object stored under bucket and key `g`, if any. -/
def MemStore.find (g : GetObjectInput) : MemStore → Option Bytes
  | [] => none
  | (k, v) :: rest => if k = g then some v else MemStore.find g rest

/-- A backend over the store in memory.  An upload fails with `fault inp` when
that is an error and leaves the store as it was; a download fails with
`readFault g` when that is an error, and with `NoSuchKey` when no object is
stored under the key. -/
def memS3 (fault : UploadInput → Option GoError) (readFault : GetObjectInput → Option GoError) :
    S3Backend MemStore where
  downloader := fun g w =>
    match readFault g with
    | some e => ([], some e)
    | none =>
      match MemStore.find g w with
      | some v => (v, none)
      | none => ([], some noSuchKey)
  uploader := fun inp w =>
    match fault inp with
    | some e => (some e, w)
    | none => (none, ({ Bucket := inp.Bucket, Key := inp.Key }, inp.Body) :: w)
  parallel := 1

/-- A backend in memory without faults. -/
def okS3 : S3Backend MemStore := memS3 (fun _ => none) (fun _ => none)

/-- A backend in memory whose every upload fails. -/
def downS3 : S3Backend MemStore :=
  memS3 (fun _ => some (.errorString "connection reset")) (fun _ => none)

/-- A backend in memory whose every download fails for a reason other than a
missing key. -/
def unreadableS3 : S3Backend MemStore :=
  memS3 (fun _ => none) (fun _ => some (.errorString "connection reset"))

/-- A sample serializer: one byte per category name and the index bytes, each
entry led by its length; a `nil` map cannot be encoded, and input whose
lengths do not add up cannot be decoded. -/
def sampleEncode : List (String × CheckpointIndex) → Bytes
  | [] => []
  | (k, v) :: rest =>
    k.data.length :: (k.data.map Char.toNat ++ (v.data.length :: (v.data ++ sampleEncode rest)))

/-- The decoder of the sample serializer, on at most `fuel` entries. -/
def sampleDecode : Nat → Bytes → Option (List (String × CheckpointIndex))
  | _, [] => some []
  | 0, _ :: _ => none
  | fuel + 1, klen :: rest =>
    if rest.length < klen then none
    else
      match rest.drop klen with
      | [] => none
      | vlen :: rest2 =>
        if rest2.length < vlen then none
        else
          match sampleDecode fuel (rest2.drop vlen) with
          | none => none
          | some m =>
            some ((String.mk ((rest.take klen).map Char.ofNat), { data := rest2.take vlen }) :: m)

/-- The sample serializer. -/
def sampleSerializer : Serializer where
  writeGzippedTo := fun m =>
    match m with
    | none => ([], 0, some (.errorString "nil index set"))
    | some l => (sampleEncode l, (sampleEncode l).length, none)
  readGzippedFrom := fun buf =>
    match sampleDecode buf.length buf with
    | some l => (some l, buf.length, none)
    | none => (none, 0, some (.errorString "unexpected EOF"))

/-- The concrete scenario of the spec: account `GABC` with one `asset`
index. -/
def gabc : batch :=
  { account := "GABC", indexes := some [("asset", { data := [1, 2, 3] })] }

/-- A second account, with an `account` index. -/
def gxyz : batch :=
  { account := "GXYZ", indexes := some [("account", { data := [7] })] }

/-- A batch whose index set the sample serializer cannot encode. -/
def gnil : batch := { account := "GNIL", indexes := none }

end index

namespace history

/-! ## `filter_rules.go` -/

/-- The constant `filterRulesTableName`. -/
def filterRulesTableName : String := "ingest_filter_rules"

/-- The constant `filterRulesTypeColumnName`. -/
def filterRulesTypeColumnName : String := "name"

/-- The constant `filterRulesColumnName`. -/
def filterRulesColumnName : String := "rules"

/-- The constant `filterRulesEnabledColumnName`. -/
def filterRulesEnabledColumnName : String := "enabled"

/-- The constant `filterRulesLastModifiedColumnName`. -/
def filterRulesLastModifiedColumnName : String := "last_modified"

/-- The constant `FilterAssetFilterName`. -/
def FilterAssetFilterName : String := "asset"

/-- The constant `FilterAccountFilterName`. -/
def FilterAccountFilterName : String := "account"

/-- The package variable `supportedNames`. -/
def supportedNames : List String := [FilterAssetFilterName, FilterAccountFilterName]

/-- The struct `FilterConfig`. -/
structure FilterConfig where
  Enabled : Bool
  Rules : String
  Name : String
  LastModified : Int
deriving DecidableEq, Repr

/-- The struct `problem.P` of the render package; `Typ` is its field `Type`,
and `Extras` is `none` for the `nil` map. -/
structure P where
  Typ : String
  Title : String
  Status : Int
  Detail : String
  Extras : Option (List (String × String))
deriving DecidableEq, Repr

/-- Go `error` values, as far as this file tells them apart: a problem `P`
returned as an error, and every other error value, known by its text. -/
inductive GoError where
  | problem (p : P) : GoError
  | errorString (text : String) : GoError
deriving DecidableEq, Repr

/-- The error built by `errors.Errorf`, given the already formatted text. -/
def Errorf (text : String) : GoError := .errorString text

/-- A value bound in a statement: an SQL expression (`sq.Expr`), a boolean or
a string. -/
inductive SqlValue where
  | Expr (sql : String) : SqlValue
  | Bool (b : Bool) : SqlValue
  | String (s : String) : SqlValue
deriving DecidableEq, Repr

/-- The statements the squirrel builders of `UpsertFilterConfig` stand for:
`sq.Update(table).SetMap(cols).Where(sq.Eq{column: value})` and
`sq.Insert(table).SetMap(cols)`. -/
inductive Sqlizer where
  | Update (table : String) (setMap : List (String × SqlValue))
      (whereEq : String × String) : Sqlizer
  | Insert (table : String) (setMap : List (String × SqlValue)) : Sqlizer
deriving DecidableEq, Repr

/-- A `sql.Result`, by what its method `RowsAffected()` returns. -/
structure Result where
  RowsAffected : Int × Option GoError
deriving DecidableEq, Repr

/-- The query object `Q` over a database with states `σ`, by its method
`Exec`: the result or the error, and the database afterwards. -/
structure Q (σ : Type) where
  Exec : Sqlizer → σ → Except GoError Result × σ

/-- The method `Q.checkForError`. -/
def Q.checkForError {σ : Type} (q : Q σ) (builder : Sqlizer) (w : σ) :
    (Int × Option GoError) × σ :=
  match q.Exec builder w with
  | (.error err, w1) => ((0, some err), w1)
  | (.ok result, w1) => (result.RowsAffected, w1)

/-- The method `Q.supportedFilterNames`: the loop over `supportedNames`. -/
def Q.supportedFilterNames {σ : Type} (_q : Q σ) (name : String) : Bool :=
  let rec loop : List String → Bool
    | [] => false
    | supportedName :: rest => if name = supportedName then true else loop rest
  loop supportedNames

/-- The map `updateCols` of `UpsertFilterConfig`. -/
def updateCols (config : FilterConfig) : List (String × SqlValue) :=
  [ (filterRulesLastModifiedColumnName, .Expr "extract(epoch from now() at time zone \'utc\')"),
    (filterRulesEnabledColumnName, .Bool config.Enabled),
    (filterRulesColumnName, .String config.Rules),
    (filterRulesTypeColumnName, .String config.Name) ]

/-- The statement `sqlUpdate` of `UpsertFilterConfig`. -/
def sqlUpdate (config : FilterConfig) : Sqlizer :=
  .Update filterRulesTableName (updateCols config) (filterRulesTypeColumnName, config.Name)

/-- The statement `sqlInsert` of `UpsertFilterConfig`. -/
def sqlInsert (config : FilterConfig) : Sqlizer :=
  .Insert filterRulesTableName (updateCols config)

/-- The method `Q.UpsertFilterConfig`.  `ServerError` is the package variable
`problem.ServerError`, declared outside this file. -/
def Q.UpsertFilterConfig {σ : Type} (q : Q σ) (ServerError : P) (config : FilterConfig)
    (w : σ) : Option GoError × σ :=
  if !q.supportedFilterNames config.Name then
    (some (.problem { ServerError with
      Extras := some [("reason",
        "invalid filter name, " ++ config.Name ++ ", no implementation for this exists")] }), w)
  else
    match q.checkForError (sqlUpdate config) w with
    | ((_, some err), w1) => (some err, w1)
    | ((rowCnt, none), w1) =>
      if rowCnt < 1 then
        match q.checkForError (sqlInsert config) w1 with
        | ((_, some err), w2) => (some err, w2)
        | ((rowCnt2, none), w2) =>
          if rowCnt2 < 1 then
            (some (Errorf "insertion of filter rule did not result in new row created in db"), w2)
          else (none, w2)
      else (none, w1)

/-- The same query object with every executed statement recorded next to the
database. -/
def Q.recording {σ : Type} (q : Q σ) : Q (σ × List Sqlizer) where
  Exec := fun st w => ((q.Exec st w.1).1, ((q.Exec st w.1).2, w.2 ++ [st]))

/-- A sample database: the filter rules table by the names of its rows. Every
statement succeeds; an update affects the rows of that name, an insert adds
one row. -/
def tableQ : Q (List String) where
  Exec := fun st rows =>
    match st with
    | .Update _ _ whereEq =>
      (.ok { RowsAffected := ((rows.filter (fun n => n = whereEq.2)).length, none) }, rows)
    | .Insert _ setMap =>
      match setMap.lookup filterRulesTypeColumnName with
      | some (.String n) => (.ok { RowsAffected := (1, none) }, rows ++ [n])
      | _ => (.error (.errorString "null value in column name"), rows)

/-- A sample value for `problem.ServerError`. -/
def sampleServerError : P :=
  { Typ := "server_error", Title := "Internal Server Error", Status := 500,
    Detail := "An error occurred while processing this request.", Extras := none }

end history

/-! # Theorems -/

namespace index

/-! ## Shared lemmas -/

theorem Read_of_download_error {σ : Type} (s : S3Backend σ) (z : Serializer) (account : String)
    (w : σ) (buf : Bytes) (err : GoError)
    (hd : s.downloader { Bucket := BUCKET, Key := account } w = (buf, some err))
    (hk : ∀ text, err ≠ .awserr ErrCodeNoSuchKey text) :
    s.Read z account w = (none, some err) := by
  unfold S3Backend.Read
  rw [hd]
  cases err with
  | ErrNotExist => rfl
  | errorString text => rfl
  | awserr code text =>
    have hc : code ≠ ErrCodeNoSuchKey := fun h => hk text (by rw [h])
    simp [hc]

theorem Read_of_NoSuchKey {σ : Type} (s : S3Backend σ) (z : Serializer) (account : String)
    (w : σ) (buf : Bytes) (text : String)
    (hd : s.downloader { Bucket := BUCKET, Key := account } w
      = (buf, some (.awserr ErrCodeNoSuchKey text))) :
    s.Read z account w = (none, some .ErrNotExist) := by
  unfold S3Backend.Read
  rw [hd]
  simp

theorem Read_of_download_ok {σ : Type} (s : S3Backend σ) (z : Serializer) (account : String)
    (w : σ) (buf : Bytes)
    (hd : s.downloader { Bucket := BUCKET, Key := account } w = (buf, none)) :
    s.Read z account w = ((z.readGzippedFrom buf).1, (z.readGzippedFrom buf).2.2) := by
  unfold S3Backend.Read
  rw [hd]

theorem writeBatch_of_serialize_error {σ ρ : Type} (s : S3Backend σ) (z : Serializer)
    (b : batch) (r : retry ρ) (w : σ) (q : ρ) (cause : GoError)
    (hz : (z.writeGzippedTo b.indexes).2.2 = some cause) :
    s.writeBatch z b r w q
      = (some (Errorf ("unable to serialize " ++ b.account ++ ": " ++ cause.Error)), w, q) := by
  unfold S3Backend.writeBatch
  rcases hw : z.writeGzippedTo b.indexes with ⟨buf, n, e⟩
  rw [hw] at hz
  simp only at hz
  subst hz
  rfl

theorem writeBatch_of_upload_error {σ ρ : Type} (s : S3Backend σ) (z : Serializer)
    (b : batch) (r : retry ρ) (w : σ) (q : ρ) (cause : GoError)
    (hz : (z.writeGzippedTo b.indexes).2.2 = none)
    (hu : (s.uploader ⟨BUCKET, b.account, (z.writeGzippedTo b.indexes).1⟩ w).1 = some cause) :
    s.writeBatch z b r w q
      = (some (Errorf ("unable to upload " ++ b.account ++ ", " ++ cause.Error)),
          (s.uploader ⟨BUCKET, b.account, (z.writeGzippedTo b.indexes).1⟩ w).2, r b q) := by
  unfold S3Backend.writeBatch
  rcases hw : z.writeGzippedTo b.indexes with ⟨buf, n, e⟩
  rw [hw] at hz hu
  simp only at hz hu
  subst hz
  rcases hup : s.uploader ⟨BUCKET, b.account, buf⟩ w with ⟨e1, w1⟩
  rw [hup] at hu
  simp only at hu
  subst hu
  simp only [hup]

theorem writeBatch_of_upload_ok {σ ρ : Type} (s : S3Backend σ) (z : Serializer)
    (b : batch) (r : retry ρ) (w : σ) (q : ρ)
    (hz : (z.writeGzippedTo b.indexes).2.2 = none)
    (hu : (s.uploader ⟨BUCKET, b.account, (z.writeGzippedTo b.indexes).1⟩ w).1 = none) :
    s.writeBatch z b r w q
      = (none, (s.uploader ⟨BUCKET, b.account, (z.writeGzippedTo b.indexes).1⟩ w).2, q) := by
  unfold S3Backend.writeBatch
  rcases hw : z.writeGzippedTo b.indexes with ⟨buf, n, e⟩
  rw [hw] at hz hu
  simp only at hz hu
  subst hz
  rcases hup : s.uploader ⟨BUCKET, b.account, buf⟩ w with ⟨e1, w1⟩
  rw [hup] at hu
  simp only at hu
  subst hu
  simp only [hup]

theorem mentions_second (a b c d : String) : mentions (a ++ b ++ c ++ d) b := by
  refine ⟨a.data, c.data ++ d.data, ?_⟩
  simp [String.data_append]

theorem mentions_last (a c : String) : mentions (a ++ c) c := by
  refine ⟨a.data, [], ?_⟩
  simp [String.data_append]

/-! ## The sample collaborators meet their contracts -/

theorem sampleDecode_encode (l : List (String × CheckpointIndex)) :
    ∀ fuel, (sampleEncode l).length ≤ fuel → sampleDecode fuel (sampleEncode l) = some l := by
  induction l with
  | nil => intro fuel _; cases fuel <;> rfl
  | cons e rest ih =>
    obtain ⟨k, v⟩ := e
    intro fuel hf
    cases fuel with
    | zero => simp [sampleEncode] at hf
    | succ fuel =>
      have hk : (List.map Char.toNat k.data).length = k.data.length := List.length_map _ _
      have hdrop : List.drop k.data.length
          (List.map Char.toNat k.data ++ (v.data.length :: (v.data ++ sampleEncode rest)))
          = v.data.length :: (v.data ++ sampleEncode rest) := by
        rw [← hk, List.drop_left]
      have htake : List.take k.data.length
          (List.map Char.toNat k.data ++ (v.data.length :: (v.data ++ sampleEncode rest)))
          = List.map Char.toNat k.data := by
        rw [← hk, List.take_left]
      have hrec : sampleDecode fuel (sampleEncode rest) = some rest := by
        apply ih
        simp [sampleEncode] at hf
        omega
      have hchars : List.map (Char.ofNat ∘ Char.toNat) k.data = k.data := by
        have : (Char.ofNat ∘ Char.toNat) = id := by
          funext c
          simp
        rw [this, List.map_id]
      simp only [sampleEncode, sampleDecode]
      rw [if_neg (by simp), hdrop]
      simp only []
      rw [if_neg (by simp), List.drop_left, hrec, htake, List.take_left]
      simp [hchars]

theorem sampleSerializer_RoundTrips : sampleSerializer.RoundTrips := by
  intro m buf n h
  cases m with
  | none => simp [sampleSerializer] at h
  | some l =>
    simp only [sampleSerializer, Prod.mk.injEq] at h
    obtain ⟨rfl, _, _⟩ := h
    simp [sampleSerializer, sampleDecode_encode l _ le_rfl]

theorem sampleSerializer_DecodeFailsClean : sampleSerializer.DecodeFailsClean := by
  intro buf h
  simp only [sampleSerializer] at h ⊢
  cases hdec : sampleDecode buf.length buf with
  | none => rfl
  | some l => simp [hdec] at h

theorem sampleSerializer_DecodeErrorsAreSerialization :
    sampleSerializer.DecodeErrorsAreSerialization := by
  intro buf
  simp only [sampleSerializer]
  cases sampleDecode buf.length buf <;> simp

theorem memS3_PutGet : okS3.PutGet := by
  intro inp w w1 h
  simp only [okS3, memS3, Prod.mk.injEq, true_and] at h
  subst h
  constructor
  · simp [okS3, memS3, MemStore.find]
  · intro g hg
    simp [okS3, memS3, MemStore.find, Ne.symm hg]

/-! ## `S3Backend.Read` -/

/-- C1: when the download fails with an `awserr.Error` whose code is
`NoSuchKey`, `Read` returns the `nil` index set with `os.ErrNotExist`; when the
download fails with any other error (itself not that sentinel), `Read` returns
that error, which is not `os.ErrNotExist`. -/
theorem Read_not_found_distinct {σ : Type} (s : S3Backend σ) (z : Serializer)
    (account : String) (w : σ) (buf : Bytes) (err : GoError)
    (hd : s.downloader { Bucket := BUCKET, Key := account } w = (buf, some err)) :
    ((∃ text, err = .awserr ErrCodeNoSuchKey text) →
      s.Read z account w = (none, some .ErrNotExist)) ∧
    ((∀ text, err ≠ .awserr ErrCodeNoSuchKey text) → err ≠ .ErrNotExist →
      s.Read z account w = (none, some err) ∧ (s.Read z account w).2 ≠ some .ErrNotExist) := by
  constructor
  · rintro ⟨text, rfl⟩
    exact Read_of_NoSuchKey s z account w buf text hd
  · intro hk hne
    have h := Read_of_download_error s z account w buf err hd hk
    refine ⟨h, ?_⟩
    rw [h]
    intro hc
    exact hne (Option.some.inj hc)

theorem Read_not_found_distinct_witness :
    okS3.Read sampleSerializer "GXYZ" [] = (none, some .ErrNotExist) ∧
    (unreadableS3.Read sampleSerializer "GXYZ" []).2 ≠ some .ErrNotExist :=
  ⟨(Read_not_found_distinct okS3 sampleSerializer "GXYZ" [] [] noSuchKey rfl).1 ⟨_, rfl⟩,
   ((Read_not_found_distinct unreadableS3 sampleSerializer "GXYZ" [] []
      (.errorString "connection reset") rfl).2 (by intro t h; cases h) (by decide)).2⟩

/-- C3: when the download succeeds and the bytes fail to decode, `Read`
returns the decoder's error: it does not return success, and (the decoder's
errors being serialization errors) the error is not `os.ErrNotExist`. -/
theorem Read_corrupted_is_serialization_error {σ : Type} (s : S3Backend σ) (z : Serializer)
    (account : String) (w : σ) (buf : Bytes) (e : GoError)
    (hc : z.DecodeErrorsAreSerialization)
    (hd : s.downloader { Bucket := BUCKET, Key := account } w = (buf, none))
    (he : (z.readGzippedFrom buf).2.2 = some e) :
    (s.Read z account w).2 = some e ∧ (s.Read z account w).2 ≠ none ∧
      (s.Read z account w).2 ≠ some .ErrNotExist := by
  have h := Read_of_download_ok s z account w buf hd
  rw [h]
  refine ⟨he, ?_, hc buf⟩
  simp [he]

/-- C5: whenever `Read` returns an error, the index set it returns with it is
`nil` (for a decode failure: as far as the decoder itself does not populate a
result on failure). -/
theorem Read_error_has_nil_indexes {σ : Type} (s : S3Backend σ) (z : Serializer)
    (account : String) (w : σ) (hc : z.DecodeFailsClean)
    (h : (s.Read z account w).2 ≠ none) : (s.Read z account w).1 = none := by
  rcases hd : s.downloader { Bucket := BUCKET, Key := account } w with ⟨buf, e⟩
  cases e with
  | none =>
    have hr := Read_of_download_ok s z account w buf hd
    rw [hr] at h ⊢
    exact hc buf h
  | some err =>
    by_cases hk : ∃ text, err = .awserr ErrCodeNoSuchKey text
    · obtain ⟨text, rfl⟩ := hk
      rw [Read_of_NoSuchKey s z account w buf text hd]
    · rw [Read_of_download_error s z account w buf err hd
        (fun text ht => hk ⟨text, ht⟩)]

/-- C4, as the code has it: for every download failure other than a missing
key, `Read` returns the downloader's error itself, unchanged, with the `nil`
index set; the text of the returned error is the text of the cause and
nothing is added to it. -/
theorem Read_passes_download_error {σ : Type} (s : S3Backend σ) (z : Serializer)
    (account : String) (w : σ) (buf : Bytes) (err : GoError)
    (hd : s.downloader { Bucket := BUCKET, Key := account } w = (buf, some err))
    (hk : ∀ text, err ≠ .awserr ErrCodeNoSuchKey text) :
    s.Read z account w = (none, some err) ∧
      (s.Read z account w).2.map GoError.Error = some err.Error := by
  have h := Read_of_download_error s z account w buf err hd hk
  rw [h]
  exact ⟨rfl, rfl⟩

theorem Read_passes_download_error_witness :
    unreadableS3.Read sampleSerializer "GABC" [] = (none, some (.errorString "connection reset")) ∧
      (unreadableS3.Read sampleSerializer "GABC" []).2.map GoError.Error
        = some "connection reset" :=
  Read_passes_download_error unreadableS3 sampleSerializer "GABC" [] []
    (.errorString "connection reset") rfl (by intro t h; cases h)

/-- C4 fails as stated: reading account `GABC` from a store whose download
fails with `connection reset` returns that very error, and its text does not
mention `GABC`. -/
theorem Read_error_lacks_account :
    unreadableS3.Read sampleSerializer "GABC" [] = (none, some (.errorString "connection reset")) ∧
      ¬ mentions (GoError.errorString "connection reset").Error "GABC" := by
  refine ⟨rfl, ?_⟩
  unfold mentions
  decide

theorem Read_corrupted_is_serialization_error_witness :
    (okS3.Read sampleSerializer "GABC" [(⟨BUCKET, "GABC"⟩, [5])]).2
        = some (.errorString "unexpected EOF") ∧
      (okS3.Read sampleSerializer "GABC" [(⟨BUCKET, "GABC"⟩, [5])]).2 ≠ none ∧
      (okS3.Read sampleSerializer "GABC" [(⟨BUCKET, "GABC"⟩, [5])]).2 ≠ some .ErrNotExist :=
  Read_corrupted_is_serialization_error okS3 sampleSerializer "GABC" [(⟨BUCKET, "GABC"⟩, [5])]
    [5] (.errorString "unexpected EOF") sampleSerializer_DecodeErrorsAreSerialization rfl rfl

theorem Read_error_has_nil_indexes_witness :
    (okS3.Read sampleSerializer "GABC" [(⟨BUCKET, "GABC"⟩, [5])]).2 ≠ none ∧
      (okS3.Read sampleSerializer "GABC" [(⟨BUCKET, "GABC"⟩, [5])]).1 = none :=
  ⟨by decide,
   Read_error_has_nil_indexes okS3 sampleSerializer "GABC" [(⟨BUCKET, "GABC"⟩, [5])]
    sampleSerializer_DecodeFailsClean (by decide)⟩

/-! ## `S3Backend.writeBatch` -/

/-- C7: if serializing the batch's index set fails, `writeBatch` returns an
error, leaves the retry callback's state as it was for every callback, and
leaves the store as it was for every uploader; with the calls recorded, no
upload and no retry took place. -/
theorem writeBatch_serialize_failure {σ ρ : Type} (s : S3Backend σ) (z : Serializer)
    (b : batch) (r : retry ρ) (w : σ) (q : ρ) (cause : GoError)
    (hz : (z.writeGzippedTo b.indexes).2.2 = some cause) :
    (s.writeBatch z b r w q).1 ≠ none ∧
      (s.writeBatch z b r w q).2.1 = w ∧
      (s.writeBatch z b r w q).2.2 = q ∧
      (s.recording.writeBatch z b record (w, []) []).2 = ((w, []), []) := by
  rw [writeBatch_of_serialize_error s z b r w q cause hz,
    writeBatch_of_serialize_error s.recording z b record (w, []) [] cause hz]
  simp

theorem writeBatch_serialize_failure_witness :
    (sampleSerializer.writeGzippedTo gnil.indexes).2.2 = some (.errorString "nil index set") ∧
      (okS3.writeBatch sampleSerializer gnil record [] []).1 ≠ none ∧
      (okS3.writeBatch sampleSerializer gnil record [] []).2.1 = [] ∧
      (okS3.writeBatch sampleSerializer gnil record [] []).2.2 = [] ∧
      (okS3.recording.writeBatch sampleSerializer gnil record ([], []) []).2 = (([], []), []) :=
  ⟨rfl, writeBatch_serialize_failure okS3 sampleSerializer gnil record [] []
    (.errorString "nil index set") rfl⟩

/-- C8: for a batch that serializes, a failed upload makes `writeBatch` invoke
the retry callback exactly once, on that same batch, and return an error; a
successful upload makes it return no error without invoking the callback. -/
theorem writeBatch_retry_once {σ ρ : Type} (s : S3Backend σ) (z : Serializer)
    (b : batch) (r : retry ρ) (w : σ) (q : ρ)
    (hz : (z.writeGzippedTo b.indexes).2.2 = none) :
    ((s.uploader ⟨BUCKET, b.account, (z.writeGzippedTo b.indexes).1⟩ w).1 ≠ none →
      (s.writeBatch z b r w q).1 ≠ none ∧
      (s.writeBatch z b r w q).2.2 = r b q ∧
      (s.writeBatch z b record w []).2.2 = [b]) ∧
    ((s.uploader ⟨BUCKET, b.account, (z.writeGzippedTo b.indexes).1⟩ w).1 = none →
      (s.writeBatch z b r w q).1 = none ∧
      (s.writeBatch z b r w q).2.2 = q ∧
      (s.writeBatch z b record w []).2.2 = []) := by
  constructor
  · intro hu
    obtain ⟨cause, hc⟩ := Option.ne_none_iff_exists'.mp hu
    rw [writeBatch_of_upload_error s z b r w q cause hz hc,
      writeBatch_of_upload_error s z b record w [] cause hz hc]
    simp [record]
  · intro hu
    rw [writeBatch_of_upload_ok s z b r w q hz hu,
      writeBatch_of_upload_ok s z b record w [] hz hu]
    simp

theorem writeBatch_retry_once_witness :
    (downS3.writeBatch sampleSerializer gabc record [] []).1 ≠ none ∧
      (downS3.writeBatch sampleSerializer gabc record [] []).2.2 = [gabc] ∧
      (okS3.writeBatch sampleSerializer gabc record [] []).1 = none ∧
      (okS3.writeBatch sampleSerializer gabc record [] []).2.2 = [] :=
  ⟨((writeBatch_retry_once downS3 sampleSerializer gabc record [] [] rfl).1 (by decide)).1,
   ((writeBatch_retry_once downS3 sampleSerializer gabc record [] [] rfl).1 (by decide)).2.2,
   ((writeBatch_retry_once okS3 sampleSerializer gabc record [] [] rfl).2 rfl).1,
   ((writeBatch_retry_once okS3 sampleSerializer gabc record [] [] rfl).2 rfl).2.2⟩

/-- C9: whenever `writeBatch` returns an error, the text of that error
contains the batch's account and the text of the cause, which is the error of
the serializer or, when the set serialized, the error of the uploader. -/
theorem writeBatch_error_names_account {σ ρ : Type} (s : S3Backend σ) (z : Serializer)
    (b : batch) (r : retry ρ) (w : σ) (q : ρ) (e : GoError)
    (h : (s.writeBatch z b r w q).1 = some e) :
    mentions e.Error b.account ∧
      ∃ cause : GoError,
        ((z.writeGzippedTo b.indexes).2.2 = some cause ∨
          ((z.writeGzippedTo b.indexes).2.2 = none ∧
            (s.uploader ⟨BUCKET, b.account, (z.writeGzippedTo b.indexes).1⟩ w).1 = some cause)) ∧
        mentions e.Error cause.Error := by
  cases hz : (z.writeGzippedTo b.indexes).2.2 with
  | some cause =>
    rw [writeBatch_of_serialize_error s z b r w q cause hz] at h
    simp only [Option.some.injEq] at h
    subst h
    refine ⟨?_, cause, Or.inl rfl, ?_⟩
    · exact mentions_second "unable to serialize " b.account ": " cause.Error
    · exact mentions_last ("unable to serialize " ++ b.account ++ ": ") cause.Error
  | none =>
    cases hu : (s.uploader ⟨BUCKET, b.account, (z.writeGzippedTo b.indexes).1⟩ w).1 with
    | none =>
      rw [writeBatch_of_upload_ok s z b r w q hz hu] at h
      simp at h
    | some cause =>
      rw [writeBatch_of_upload_error s z b r w q cause hz hu] at h
      simp only [Option.some.injEq] at h
      subst h
      refine ⟨?_, cause, Or.inr ⟨rfl, rfl⟩, ?_⟩
      · exact mentions_second "unable to upload " b.account ", " cause.Error
      · exact mentions_last ("unable to upload " ++ b.account ++ ", ") cause.Error

theorem writeBatch_error_names_account_witness :
    (downS3.writeBatch sampleSerializer gabc record [] []).1
        = some (.errorString "unable to upload GABC, connection reset") ∧
      mentions "unable to upload GABC, connection reset" "GABC" :=
  ⟨rfl, (writeBatch_error_names_account downS3 sampleSerializer gabc record [] []
    (.errorString "unable to upload GABC, connection reset") rfl).1⟩

/-! ## Write, then read -/

theorem writeBatch_ok_inv {σ ρ : Type} (s : S3Backend σ) (z : Serializer)
    (b : batch) (r : retry ρ) (w : σ) (q : ρ) (h : (s.writeBatch z b r w q).1 = none) :
    (z.writeGzippedTo b.indexes).2.2 = none ∧
      s.uploader ⟨BUCKET, b.account, (z.writeGzippedTo b.indexes).1⟩ w
        = (none, (s.writeBatch z b r w q).2.1) := by
  cases hz : (z.writeGzippedTo b.indexes).2.2 with
  | some cause =>
    rw [writeBatch_of_serialize_error s z b r w q cause hz] at h
    simp at h
  | none =>
    cases hu : (s.uploader ⟨BUCKET, b.account, (z.writeGzippedTo b.indexes).1⟩ w).1 with
    | some cause =>
      rw [writeBatch_of_upload_error s z b r w q cause hz hu] at h
      simp at h
    | none =>
      rw [writeBatch_of_upload_ok s z b r w q hz hu]
      exact ⟨rfl, Prod.ext hu rfl⟩

theorem Read_after_upload {σ : Type} (s : S3Backend σ) (z : Serializer) (b : batch) (w w1 : σ)
    (hz : z.RoundTrips) (hs : s.PutGet)
    (hser : (z.writeGzippedTo b.indexes).2.2 = none)
    (hu : s.uploader ⟨BUCKET, b.account, (z.writeGzippedTo b.indexes).1⟩ w = (none, w1)) :
    s.Read z b.account w1 = (b.indexes, none) := by
  have hd := (hs _ w w1 hu).1
  have hrt := hz b.indexes (z.writeGzippedTo b.indexes).1 (z.writeGzippedTo b.indexes).2.1
    (by rw [← hser])
  rw [Read_of_download_ok s z b.account w1 _ hd, hrt.1, hrt.2]

theorem Read_congr {σ : Type} (s : S3Backend σ) (z : Serializer) (account : String) (w w1 : σ)
    (h : s.downloader { Bucket := BUCKET, Key := account } w1
      = s.downloader { Bucket := BUCKET, Key := account } w) :
    s.Read z account w1 = s.Read z account w := by
  unfold S3Backend.Read
  rw [h]

/-- C2: with a serializer that round-trips and a store that keeps what was
put, after `writeBatch` succeeded for a batch, `Read` of its account returns
the batch's index set and no error; after a second successful `writeBatch` for
another account, `Read` returns for each of the two accounts the set written
for it. -/
theorem Read_after_writeBatch {σ ρ : Type} (s : S3Backend σ) (z : Serializer)
    (b1 b2 : batch) (r : retry ρ) (w : σ) (q q2 : ρ)
    (hz : z.RoundTrips) (hs : s.PutGet) (hne : b1.account ≠ b2.account)
    (h1 : (s.writeBatch z b1 r w q).1 = none)
    (h2 : (s.writeBatch z b2 r (s.writeBatch z b1 r w q).2.1 q2).1 = none) :
    s.Read z b1.account (s.writeBatch z b1 r w q).2.1 = (b1.indexes, none) ∧
      s.Read z b1.account (s.writeBatch z b2 r (s.writeBatch z b1 r w q).2.1 q2).2.1
        = (b1.indexes, none) ∧
      s.Read z b2.account (s.writeBatch z b2 r (s.writeBatch z b1 r w q).2.1 q2).2.1
        = (b2.indexes, none) := by
  obtain ⟨hser1, hu1⟩ := writeBatch_ok_inv s z b1 r w q h1
  obtain ⟨hser2, hu2⟩ := writeBatch_ok_inv s z b2 r _ q2 h2
  have r1 := Read_after_upload s z b1 w _ hz hs hser1 hu1
  have r2 := Read_after_upload s z b2 _ _ hz hs hser2 hu2
  refine ⟨r1, ?_, r2⟩
  rw [← r1]
  apply Read_congr
  apply (hs _ _ _ hu2).2
  intro hc
  injection hc with _ hk
  exact hne hk

theorem Read_after_writeBatch_witness :
    okS3.Read sampleSerializer "GABC" (okS3.writeBatch sampleSerializer gabc record [] []).2.1
        = (some [("asset", { data := [1, 2, 3] })], none) ∧
      okS3.Read sampleSerializer "GABC"
          (okS3.writeBatch sampleSerializer gxyz record
            (okS3.writeBatch sampleSerializer gabc record [] []).2.1 []).2.1
        = (some [("asset", { data := [1, 2, 3] })], none) ∧
      okS3.Read sampleSerializer "GXYZ"
          (okS3.writeBatch sampleSerializer gxyz record
            (okS3.writeBatch sampleSerializer gabc record [] []).2.1 []).2.1
        = (some [("account", { data := [7] })], none) :=
  Read_after_writeBatch okS3 sampleSerializer gabc gxyz record [] [] []
    sampleSerializer_RoundTrips memS3_PutGet (by decide) rfl rfl

/-! ## The scheduler -/

theorem runWorkers_succ {σ : Type} (maxRetries parallel : Nat) (order : Nat → Nat)
    (f : batchWriter σ) (n : Nat) (st : Sched) (w : σ) :
    runWorkers maxRetries parallel order f (n + 1) st w
      = runWorkers maxRetries parallel order f n
          (workerStep maxRetries parallel (order n) f st w).1
          (workerStep maxRetries parallel (order n) f st w).2 := by
  conv_lhs => unfold runWorkers

/-- Without a worker nothing is ever written: a flush of a request that is
not empty never returns. -/
theorem parallelFlush_no_worker {σ : Type} (maxRetries : Nat) (order : Nat → Nat)
    (indexes : List (String × IndexSet)) (f : batchWriter σ) (w : σ) (hne : indexes ≠ []) :
    parallelFlush maxRetries 0 order indexes f w = none := by
  have hrun : ∀ (n : Nat) (st : Sched), runWorkers maxRetries 0 order f n st w = (st, w) := by
    intro n
    induction n with
    | zero => intro st; rfl
    | succ n ih =>
      intro st
      have hw : workerStep maxRetries 0 (order n) f st w = (st, w) := by
        simp [workerStep]
      rw [runWorkers_succ, hw, ih]
  unfold parallelFlush
  rw [hrun]
  simp [hne]

end index

namespace history

theorem supportedFilterNames_iff {σ : Type} (q : Q σ) (name : String) :
    q.supportedFilterNames name = true ↔ name = "asset" ∨ name = "account" := by
  simp [Q.supportedFilterNames, Q.supportedFilterNames.loop, supportedNames,
    FilterAssetFilterName, FilterAccountFilterName]

theorem recording_checkForError {σ : Type} (q : Q σ) (builder : Sqlizer) (w : σ)
    (log : List Sqlizer) :
    q.recording.checkForError builder (w, log)
      = ((q.checkForError builder w).1, ((q.checkForError builder w).2, log ++ [builder])) := by
  unfold Q.checkForError Q.recording
  simp only []
  rcases q.Exec builder w with ⟨r, w1⟩
  cases r <;> rfl

/-- C10: `supportedFilterNames` holds exactly of `asset` and `account`.  For
any other name `UpsertFilterConfig` returns the server-error problem whose
extras give the invalid name as the reason, leaves the database as it was and
executes no statement.  For a supported name the update is executed first, and
the insert is executed after it exactly when the update succeeded and affected
fewer than one row. -/
theorem UpsertFilterConfig_name_gate {σ : Type} (q : Q σ) (ServerError : P)
    (config : FilterConfig) (w : σ) :
    (∀ name : String, q.supportedFilterNames name = true ↔ name = "asset" ∨ name = "account") ∧
    (¬ (config.Name = "asset" ∨ config.Name = "account") →
      q.UpsertFilterConfig ServerError config w
        = (some (.problem { ServerError with
            Extras := some [("reason",
              "invalid filter name, " ++ config.Name ++ ", no implementation for this exists")] }),
            w) ∧
      (q.recording.UpsertFilterConfig ServerError config (w, [])).2.2 = []) ∧
    ((config.Name = "asset" ∨ config.Name = "account") →
      (q.recording.UpsertFilterConfig ServerError config (w, [])).2.2
        = if (q.checkForError (sqlUpdate config) w).1.2 = none ∧
              (q.checkForError (sqlUpdate config) w).1.1 < 1
          then [sqlUpdate config, sqlInsert config] else [sqlUpdate config]) := by
  refine ⟨supportedFilterNames_iff q, ?_, ?_⟩
  · intro hn
    have h1 : q.supportedFilterNames config.Name = false := by
      rw [← Bool.not_eq_true, supportedFilterNames_iff]
      exact hn
    have h2 : q.recording.supportedFilterNames config.Name = false := by
      rw [← Bool.not_eq_true, supportedFilterNames_iff]
      exact hn
    simp [Q.UpsertFilterConfig, h1, h2]
  · intro hn
    have h2 : q.recording.supportedFilterNames config.Name = true :=
      (supportedFilterNames_iff q.recording config.Name).mpr hn
    unfold Q.UpsertFilterConfig
    simp only [h2, Bool.not_true, Bool.false_eq_true, if_false]
    rw [recording_checkForError]
    rcases hu : q.checkForError (sqlUpdate config) w with ⟨⟨rowCnt, e⟩, w1⟩
    cases e with
    | some err => simp
    | none =>
      by_cases hlt : rowCnt < 1
      · simp only [hlt, if_true, true_and]
        rw [recording_checkForError]
        rcases q.checkForError (sqlInsert config) w1 with ⟨⟨rowCnt2, e2⟩, w2⟩
        cases e2 with
        | some err => simp
        | none => by_cases h2 : rowCnt2 < 1 <;> simp [h2]
      · simp [hlt]

theorem UpsertFilterConfig_name_gate_witness :
    (tableQ.UpsertFilterConfig sampleServerError
        { Enabled := true, Rules := "", Name := "claimable", LastModified := 0 } []
      = (some (.problem { sampleServerError with
          Extras := some [("reason",
            "invalid filter name, claimable, no implementation for this exists")] }), []) ∧
      (tableQ.recording.UpsertFilterConfig sampleServerError
        { Enabled := true, Rules := "", Name := "claimable", LastModified := 0 } ([], [])).2.2
        = []) ∧
    (tableQ.recording.UpsertFilterConfig sampleServerError
        { Enabled := true, Rules := "", Name := "asset", LastModified := 0 } ([], [])).2.2
      = [sqlUpdate { Enabled := true, Rules := "", Name := "asset", LastModified := 0 },
         sqlInsert { Enabled := true, Rules := "", Name := "asset", LastModified := 0 }] :=
  ⟨(UpsertFilterConfig_name_gate tableQ sampleServerError
      { Enabled := true, Rules := "", Name := "claimable", LastModified := 0 } []).2.1 (by decide),
   (UpsertFilterConfig_name_gate tableQ sampleServerError
      { Enabled := true, Rules := "", Name := "asset", LastModified := 0 } []).2.2 (by decide)⟩

end history
